import Mathlib

/-!
Verification of the demo recorder in `demo/record.py`.

The script drives a remote terminal-control service (shellwright, spoken
over MCP) through a fixed save -> kill -> restore scenario, downloading
verification artifacts along the way.  We embed it shallowly:

* Python JSON values become the inductive `Json`; Python dicts become
  association lists in source order.
* The remote endpoint is a parameter `Session : String -> args -> Except PyExc ToolResponse`
  (the result of `session.call_tool`), `json.loads` is a parameter
  `JsonLoads : String -> Option Json` (`none` models a raised
  `JSONDecodeError`/`TypeError`), and `urllib.request.urlretrieve` is a
  parameter `Fetch : String -> Except PyExc String`.
* Effects are traced: every function of the script runs in the monad
  `M a = List Event -> Except PyExc a × List Event`, appending console
  output, transmitted RPC requests, sleeps and file writes to the trace.
  An `Except.error` models an uncaught Python exception.
-/

set_option maxHeartbeats 1000000

/-- A Python JSON-style value (also used for the values of tool-call
argument dicts). -/
inductive Json where
  | null : Json
  | bool (b : Bool) : Json
  | num (n : Int) : Json
  | str (s : String) : Json
  | arr (xs : List Json) : Json
  | obj (fields : List (String × Json)) : Json

mutual

def jsonBeq : Json → Json → Bool
  | Json.null, Json.null => true
  | Json.bool a, Json.bool b => a == b
  | Json.num a, Json.num b => a == b
  | Json.str a, Json.str b => a == b
  | Json.arr a, Json.arr b => jsonListBeq a b
  | Json.obj a, Json.obj b => jsonFieldsBeq a b
  | _, _ => false

def jsonListBeq : List Json → List Json → Bool
  | [], [] => true
  | x :: xs, y :: ys => jsonBeq x y && jsonListBeq xs ys
  | _, _ => false

def jsonFieldsBeq : List (String × Json) → List (String × Json) → Bool
  | [], [] => true
  | (k, v) :: xs, (l, w) :: ys => k == l && jsonBeq v w && jsonFieldsBeq xs ys
  | _, _ => false

end

instance : BEq Json := ⟨jsonBeq⟩

/-- A Python exception, identified by its type name and its message
(`str(e)`). -/
structure PyExc where
  typeName : String
  msg : String
deriving DecidableEq

/-- One observable effect of the script. -/
inductive Event where
  /-- A line written to stdout. -/
  | printed (s : String) : Event
  /-- A line written to stderr. -/
  | printedErr (s : String) : Event
  /-- `os.makedirs(dir, exist_ok=True)`. -/
  | mkdir (dir : String) : Event
  /-- A tool invocation transmitted to the remote side (name and the full
  argument dict, in source order). -/
  | rpc (name : String) (args : List (String × Json)) : Event
  /-- `asyncio.sleep(seconds)`. -/
  | slept (seconds : ℚ) : Event
  /-- A file written on local storage (path and fetched content). -/
  | wrote (path : String) (content : String) : Event

/-- The effect monad of the embedding: a trace transformer that either
returns a value or an uncaught Python exception, preserving the trace of
events emitted so far. -/
def M (α : Type) : Type := List Event → Except PyExc α × List Event

def M.pure {α : Type} (a : α) : M α := fun tr => (Except.ok a, tr)

def M.bind {α β : Type} (x : M α) (f : α → M β) : M β := fun tr =>
  match x tr with
  | (Except.ok a, tr2) => f a tr2
  | (Except.error e, tr2) => (Except.error e, tr2)

instance monadM : Monad M where
  pure := M.pure
  bind := M.bind

/-- Raise a Python exception. -/
def M.throwExc {α : Type} (e : PyExc) : M α := fun tr => (Except.error e, tr)

/-- Append one event to the trace. -/
def emit (e : Event) : M Unit := fun tr => (Except.ok (), tr ++ [e])

/-- Run an exception-or-value computation that emits no events. -/
def liftE {α : Type} (x : Except PyExc α) : M α := fun tr => (x, tr)

/-- The response object of `session.call_tool`: `result.content` is a list
of content items, an item without a `text` attribute is modelled by
`text = none`. -/
structure ContentItem where
  text : Option String

structure ToolResponse where
  content : List ContentItem

/-- The remote endpoint as seen through `session.call_tool`: an error is a
remote-invocation failure raised by the RPC call. -/
def Session : Type := String → List (String × Json) → Except PyExc ToolResponse

/-- `json.loads`: `none` models a raised `JSONDecodeError` (or `TypeError`). -/
def JsonLoads : Type := String → Option Json

/-- `urllib.request.urlretrieve` composed with reading the result: maps a
URL to fetched content, or to a network/disk error. -/
def Fetch : Type := String → Except PyExc String

/-! ### Module-level constants of `demo/record.py` (environment defaults). -/

def SHELLWRIGHT_URL : String := "http://localhost:7498"
def OUTPUT_DIR : String := "./demo/output"
def DEMO_HOST : String := "aspire"

def CYAN : String := "\x1b[36m"
def GREEN : String := "\x1b[32m"
def DIM : String := "\x1b[2m"
def RESET : String := "\x1b[0m"

def RESURRECT_SAVE : String := "~/.tmux/plugins/tmux-resurrect/scripts/save.sh"
def RESURRECT_RESTORE : String := "~/.tmux/plugins/tmux-resurrect/scripts/restore.sh"
def CTRL_A : String := "\x01"
def ENTER : String := "\r"

/-! ### String helpers (Python `in`, `str.lower`, `repr`, float printing). -/

/-- Containment of one character list in another, in order and contiguous
(Python's `needle in haystack` on strings). -/
def charsContains (needle : List Char) : List Char → Bool
  | [] => needle.isEmpty
  | c :: rest => List.isPrefixOf needle (c :: rest) || charsContains needle rest

/-- Python `needle in hay` for strings. -/
def strContains (needle hay : String) : Bool :=
  charsContains needle.toList hay.toList

/-- Python `s.lower()`. -/
def strLower (s : String) : String := String.mk (s.toList.map Char.toLower)

def escapeChar (c : Char) : String :=
  if c = '\r' then "\\r"
  else if c = '\x01' then "\\x01"
  else if c = '\x27' then "\\\x27"
  else String.singleton c

mutual

/-- Python `repr` on the argument values the script passes (strings,
integers, lists).  Only its injectivity-irrelevant rendering matters to the
claims; strings are quoted and lightly escaped the way `repr` escapes the
control characters the script actually uses. -/
def pyRepr : Json → String
  | Json.null => "None"
  | Json.bool b => if b then "True" else "False"
  | Json.num n => toString n
  | Json.str s => "\x27" ++ String.join (s.toList.map escapeChar) ++ "\x27"
  | Json.arr xs => "[" ++ pyReprList xs ++ "]"
  | Json.obj fs => "\x7b" ++ pyReprFields fs ++ "\x7d"

def pyReprList : List Json → String
  | [] => ""
  | [x] => pyRepr x
  | x :: xs => pyRepr x ++ ", " ++ pyReprList xs

def pyReprFields : List (String × Json) → String
  | [] => ""
  | [(k, v)] => "\x27" ++ k ++ "\x27: " ++ pyRepr v
  | (k, v) :: xs => "\x27" ++ k ++ "\x27: " ++ pyRepr v ++ ", " ++ pyReprFields xs

end

/-- Render the sleep durations the way Python prints these floats (all
waits in the script are integral or half-integral). -/
def pyFloatStr (q : ℚ) : String :=
  if q.den = 1 then toString q.num
  else if q.den = 2 then toString (q.num / 2) ++ ".5"
  else toString q.num ++ "/" ++ toString q.den

/-! ### The Tool Invoker (`call_tool`), Artifact Downloader (`download`)
and Timed Waiter (`wait`). -/

/-- The log line `call_tool` prints before issuing the request: the tool
name and every argument except `session_id`, rendered `k=repr(v)` and
comma-joined. -/
def logLine (name : String) (args : List (String × Json)) : String :=
  "  " ++ CYAN ++ name ++ RESET ++ "(" ++
    String.intercalate ", "
      ((args.filter (fun kv => kv.1 != "session_id")).map
        (fun kv => kv.1 ++ "=" ++ pyRepr kv.2)) ++ ")"

/-- Concatenation of the `text` attributes of the response content items
(items without the attribute contribute nothing; an empty content list
yields `""`). -/
def concatTexts (items : List ContentItem) : String :=
  items.foldl
    (fun acc c => match c.text with
      | some t => acc ++ t
      | none => acc) ""

/-- The `try: return json.loads(text) / except ...: return {"raw": text}`
step of `call_tool`: decode the concatenated response text, falling back
to the raw mapping when decoding raises. -/
def toolResultOf (jl : JsonLoads) (result : ToolResponse) : Json :=
  match jl (concatTexts result.content) with
  | some j => j
  | none => Json.obj [("raw", Json.str (concatTexts result.content))]

/-- `call_tool(session, name, args)`: print the log line (session_id
omitted), transmit the request, and return the decoded result or the raw
fallback.  A failing RPC call raises. -/
def call_tool (jl : JsonLoads) (sess : Session) (name : String)
    (args : List (String × Json)) : M Json := do
  emit (Event.printed (logLine name args))
  match sess name args with
  | Except.error e => M.throwExc e
  | Except.ok result => do
      emit (Event.rpc name args)
      pure (toolResultOf jl result)

/-- Python `key in data` on the values the script can reach: key lookup on
dicts, membership on lists, substring test on strings, `TypeError`
otherwise. -/
def pyIn (k : String) (j : Json) : Except PyExc Bool :=
  match j with
  | Json.obj fields => Except.ok (fields.lookup k).isSome
  | Json.arr xs => Except.ok (xs.any (fun x => x == Json.str k))
  | Json.str s => Except.ok (strContains k s)
  | _ => Except.error ⟨"TypeError", "argument of type is not iterable"⟩

/-- Python `data[k]`: `KeyError` on a dict without the key, `TypeError` on
a non-dict. -/
def dictGetitem (j : Json) (k : String) : Except PyExc Json :=
  match j with
  | Json.obj fields =>
      match fields.lookup k with
      | some v => Except.ok v
      | none => Except.error ⟨"KeyError", k⟩
  | _ => Except.error ⟨"TypeError", "object is not subscriptable"⟩

/-- `os.path.join` for the two-argument calls the script makes. -/
def ospath_join (a b : String) : String :=
  if b.toList.head? = some '/' then b
  else if a = "" then b
  else if a.toList.getLast? = some '/' then a ++ b
  else a ++ "/" ++ b

/-- `download(data, output_dir)`: when the result carries both
`download_url` and `filename`, fetch the URL into the named file under the
output directory (overwriting) and log it; otherwise do nothing. -/
def download (fetch : Fetch) (data : Json) (output_dir : String) : M Unit := do
  let hasUrl ← liftE (pyIn "download_url" data)
  if hasUrl then do
    let hasName ← liftE (pyIn "filename" data)
    if hasName then do
      let fn ← liftE (dictGetitem data "filename")
      match fn with
      | Json.str fname => do
          let path := ospath_join output_dir fname
          let u ← liftE (dictGetitem data "download_url")
          match u with
          | Json.str url => do
              let content ← liftE (fetch url)
              emit (Event.wrote path content)
              emit (Event.printed ("  " ++ GREEN ++ "saved:" ++ RESET ++ " " ++ path))
          | _ => M.throwExc ⟨"ValueError", "unknown url type"⟩
      | _ => M.throwExc ⟨"TypeError", "join() argument must be str"⟩
    else M.pure ()
  else M.pure ()

/-- `wait(seconds)`: log and sleep. -/
def wait (seconds : ℚ) : M Unit := do
  emit (Event.printed ("  " ++ DIM ++ "waiting " ++ pyFloatStr seconds ++ "s..." ++ RESET))
  emit (Event.slept seconds)

/-! ### Session Lifecycle Manager (`start_shell`, `setup_ssh`) and the
Scenario Director (`demo_save_restore`). -/

/-- The argument dict of the `shell_start` invocation. -/
def shellStartArgs : List (String × Json) :=
  [("command", Json.str "bash"),
   ("args", Json.arr [Json.str "--login", Json.str "-i"]),
   ("cols", Json.num 140),
   ("rows", Json.num 35),
   ("theme", Json.str "one-dark")]

/-- The argument dict of a `shell_send` invocation. -/
def sendArgs (sid : Json) (input : String) (delay : Int) : List (String × Json) :=
  [("session_id", sid), ("input", Json.str input), ("delay_ms", Json.num delay)]

/-- `start_shell(session)`: start a bash shell with fixed geometry, read
the session id out of the response (`shell["shell_session_id"]`, a
`KeyError` when absent) and sanitize the local prompt. -/
def start_shell (jl : JsonLoads) (sess : Session) : M (Json × Json) := do
  let shell ← call_tool jl sess "shell_start" shellStartArgs
  let sid ← liftE (dictGetitem shell "shell_session_id")
  let _ ← call_tool jl sess "shell_send" (sendArgs sid "export PS1=\x27$ \x27\r" 500)
  M.pure (sid, shell)

/-- `setup_ssh(session, sid)`: ssh to the remote host, sanitize the remote
prompt, clear the screen. -/
def setup_ssh (jl : JsonLoads) (sess : Session) (host : String) (sid : Json) : M Unit := do
  let _ ← call_tool jl sess "shell_send" (sendArgs sid ("ssh " ++ host ++ "\r") 3000)
  let _ ← call_tool jl sess "shell_send" (sendArgs sid "export PS1=\x27$ \x27\r" 500)
  let _ ← call_tool jl sess "shell_send" (sendArgs sid "clear\r" 500)
  M.pure ()

def eqBanner : String := "".pushn '=' 60

/-- The tmux list-panes command sent twice by the scenario. -/
def listPanesCmd : String :=
  "tmux list-panes -a -F \x27#\x7bsession_name\x7d:#\x7bwindow_index\x7d.#\x7bpane_index\x7d active=#\x7bpane_active\x7d cmd=#\x7bpane_current_command\x7d\x27\r"

/-- The jq invocation showing the saved assistant sessions. -/
def showSavedCmd : String :=
  "cat ~/.tmux/resurrect/assistant-sessions.json | jq \x27[ .sessions[] | \x7bpane, tool, session_id\x7d ]\x27\r"

/-- `demo_save_restore(session, output_dir)`: the full recorded
save -> kill -> restore scenario, transcribed step for step from the
source. -/
def demo_save_restore (jl : JsonLoads) (sess : Session) (fetch : Fetch)
    (host : String) (output_dir : String) : M Unit := do
  emit (Event.printed ("\n" ++ eqBanner))
  emit (Event.printed "Recording: save -> kill -> restore cycle")
  emit (Event.printed (eqBanner ++ "\n"))
  let r ← start_shell jl sess
  let sid := r.1
  setup_ssh jl sess host sid
  let _ ← call_tool jl sess "shell_record_start" [("session_id", sid), ("fps", Json.num 8)]
  let _ ← call_tool jl sess "shell_send" (sendArgs sid "tmux list-sessions\r" 1500)
  wait 1.5
  let _ ← call_tool jl sess "shell_send" (sendArgs sid "tmux list-windows -a\r" 1000)
  wait 1
  let _ ← call_tool jl sess "shell_send" (sendArgs sid listPanesCmd 1000)
  wait 1.5
  let _ ← call_tool jl sess "shell_send"
    (sendArgs sid ("tmux run-shell " ++ RESURRECT_SAVE ++ "\r") 500)
  wait 6
  let _ ← call_tool jl sess "shell_send" (sendArgs sid showSavedCmd 500)
  wait 3
  let data1 ← call_tool jl sess "shell_screenshot"
    [("session_id", sid), ("name", Json.str "verify-saved-json")]
  download fetch data1 output_dir
  let _ ← call_tool jl sess "shell_send" (sendArgs sid "tmux kill-server\r" 1500)
  wait 1.5
  let _ ← call_tool jl sess "shell_send" (sendArgs sid "tmux list-sessions\r" 1500)
  wait 2
  let _ ← call_tool jl sess "shell_send" (sendArgs sid "tmux new-session -d -s main\r" 2000)
  let _ ← call_tool jl sess "shell_send"
    (sendArgs sid "tmux set-option -g @continuum-restore \x27off\x27\r" 500)
  wait 0.5
  let _ ← call_tool jl sess "shell_send"
    (sendArgs sid ("tmux run-shell " ++ RESURRECT_RESTORE ++ "\r") 500)
  wait 15
  let _ ← call_tool jl sess "shell_send"
    (sendArgs sid "tmux kill-session -t main 2>/dev/null\r" 500)
  wait 0.5
  let _ ← call_tool jl sess "shell_send" (sendArgs sid "clear\r" 500)
  wait 0.5
  let _ ← call_tool jl sess "shell_send" (sendArgs sid "tmux list-sessions\r" 1500)
  wait 2
  let _ ← call_tool jl sess "shell_send" (sendArgs sid "tmux list-windows -a\r" 1000)
  wait 1
  let _ ← call_tool jl sess "shell_send" (sendArgs sid listPanesCmd 1000)
  wait 1.5
  let _ ← call_tool jl sess "shell_send"
    (sendArgs sid "tail -4 ~/.tmux/resurrect/assistant-restore.log\r" 1500)
  wait 2
  let data2 ← call_tool jl sess "shell_screenshot"
    [("session_id", sid), ("name", Json.str "verify-restored-sessions")]
  download fetch data2 output_dir
  let _ ← call_tool jl sess "shell_send"
    (sendArgs sid "unset TMUX; tmux attach -t skynet\r" 3000)
  wait 8
  let data3 ← call_tool jl sess "shell_screenshot"
    [("session_id", sid), ("name", Json.str "verify-agent-tui")]
  download fetch data3 output_dir
  let data4 ← call_tool jl sess "shell_record_stop"
    [("session_id", sid), ("name", Json.str "demo-save-restore")]
  download fetch data4 output_dir
  let _ ← call_tool jl sess "shell_send" (sendArgs sid (CTRL_A ++ "d") 1000)
  let _ ← call_tool jl sess "shell_send"
    (sendArgs sid "tmux set-option -g @continuum-restore \x27on\x27 2>/dev/null\r" 500)
  let _ ← call_tool jl sess "shell_send" (sendArgs sid "exit\r" 500)
  let _ ← call_tool jl sess "shell_stop" [("session_id", sid)]
  M.pure ()

/-! ### Connection Bootstrap (`main`). -/

/-- The classification `main` applies to a caught exception:
`"Connect" in type(e).__name__ or "connection" in str(e).lower()`. -/
def connPattern (e : PyExc) : Bool :=
  strContains "Connect" e.typeName || strContains "connection" (strLower e.msg)

/-- The stderr remediation message printed on a connection-classified
failure. -/
def remediationMsg (url : String) : String :=
  "\nError: Cannot connect to shellwright at " ++ url ++ "\n" ++
  "Start it first: npx -y @dwmkerr/shellwright --http --font-size 16 --cols 140 --rows 35"

/-- The directory creation and configuration banner printed before the
`try` block. -/
def configBanner (url output_dir host : String) : List Event :=
  [Event.mkdir output_dir,
   Event.printed (DIM ++ "shellwright:" ++ RESET ++ " " ++ url),
   Event.printed (DIM ++ "output:" ++ RESET ++ " " ++ output_dir),
   Event.printed (DIM ++ "host:" ++ RESET ++ " " ++ host)]

/-- How the process ends: `exited c` is `sys.exit(c)` or a normal return
(exit 0), `raised e` an exception propagating out of `main`. -/
inductive MainResult where
  | exited (code : Nat) : MainResult
  | raised (e : PyExc) : MainResult
deriving DecidableEq

/-- `main()`: print the banner, establish the connection (abstracted as
the `connect` argument: the session on success, the raised exception on
failure), run the scenario, and classify any caught exception with
`connPattern` — remediation message plus `sys.exit(1)` when it matches,
re-raise otherwise. -/
def mainFn (jl : JsonLoads) (fetch : Fetch) (url output_dir host : String)
    (connect : Except PyExc Session) : MainResult × List Event :=
  let pre := configBanner url output_dir host
  match connect with
  | Except.error e =>
      if connPattern e then
        (MainResult.exited 1, pre ++ [Event.printedErr (remediationMsg url)])
      else (MainResult.raised e, pre)
  | Except.ok sess =>
      let start := pre ++ [Event.printed (GREEN ++ "Connected to shellwright" ++ RESET)]
      match demo_save_restore jl sess fetch host output_dir start with
      | (Except.ok _, tr) =>
          (MainResult.exited 0,
           tr ++ [Event.printed ("\n" ++ GREEN ++ "Demo recorded. Output in " ++ output_dir ++ "/" ++ RESET)])
      | (Except.error e, tr) =>
          if connPattern e then
            (MainResult.exited 1, tr ++ [Event.printedErr (remediationMsg url)])
          else (MainResult.raised e, tr)

/-! ### Local filesystem model for the Artifact Downloader. -/

/-- The output directory as a list of files: path and content. -/
abbrev FS : Type := List (String × String)

/-- Writing `content` to `path`: overwrite the existing file in place, or
append a new one — the semantics of opening a local path for writing. -/
def setFile : FS → String → String → FS
  | [], p, c => [(p, c)]
  | (q, d) :: rest, p, c =>
      if q = p then (p, c) :: rest else (q, d) :: setFile rest p c

/-- Replay the file writes of a trace onto a filesystem. -/
def applyFsEvents (tr : List Event) (fs : FS) : FS :=
  tr.foldl
    (fun acc e => match e with
      | Event.wrote p c => setFile acc p c
      | _ => acc) fs

/-! ### Observation helpers over traces. -/

/-- The transmitted tool invocations of a trace, in order. -/
def rpcCalls (tr : List Event) : List (String × List (String × Json)) :=
  tr.filterMap fun e => match e with
    | Event.rpc n a => some (n, a)
    | _ => none

/-- The stdout lines of a trace, in order. -/
def printedOf (tr : List Event) : List String :=
  tr.filterMap fun e => match e with
    | Event.printed s => some s
    | _ => none

/-- The paths of the files a trace wrote, in order. -/
def wrotePaths (tr : List Event) : List String :=
  tr.filterMap fun e => match e with
    | Event.wrote p _ => some p
    | _ => none

/-- The sleep durations of a trace, in order. -/
def sleptList (tr : List Event) : List ℚ :=
  tr.filterMap fun e => match e with
    | Event.slept q => some q
    | _ => none

/-- How many invocations of the named tool a trace transmits. -/
def countTool (tr : List Event) (name : String) : Nat :=
  (rpcCalls tr).countP (fun c => c.1 == name)

/-- The `name` arguments of the capture / recording-stop invocations of a
trace, in order. -/
def captureNames (tr : List Event) : List String :=
  tr.filterMap fun e => match e with
    | Event.rpc n a =>
        if n == "shell_screenshot" || n == "shell_record_stop" then
          match a.lookup "name" with
          | some (Json.str s) => some s
          | _ => none
        else none
    | _ => none

/-- The trace restricted to transmitted invocations and sleeps. -/
def opSkeleton (tr : List Event) : List Event :=
  tr.filter fun e => match e with
    | Event.rpc _ _ => true
    | Event.slept _ => true
    | _ => false

/-- Whether two transmitted invocations are ever adjacent with no sleep in
between (checked on the rpc/sleep skeleton). -/
def twoRpcsInARow : List Event → Bool
  | [] => false
  | [_] => false
  | e1 :: e2 :: rest =>
      (match e1, e2 with
       | Event.rpc _ _, Event.rpc _ _ => true
       | _, _ => false) || twoRpcsInARow (e2 :: rest)

/-! ### A fragment of `json.loads` and the fake well-formed endpoint. -/

/-- Scan the body of a JSON string literal up to the closing quote
(no escapes — the fake endpoint emits none). -/
def takeStrBody : List Char → Option (List Char × List Char)
  | [] => none
  | c :: rest =>
      if c = '"' then some ([], rest)
      else match takeStrBody rest with
        | some (body, rem) => some (c :: body, rem)
        | none => none

/-- Parse comma-separated `"key":"value"` members of a flat JSON object. -/
def parseMembers : Nat → List Char → Option (List (String × Json) × List Char)
  | 0, _ => none
  | n + 1, '"' :: rest =>
      match takeStrBody rest with
      | some (key, rest1) =>
          match rest1 with
          | ':' :: '"' :: rest2 =>
              match takeStrBody rest2 with
              | some (val, rest3) =>
                  match rest3 with
                  | ',' :: rest4 =>
                      match parseMembers n rest4 with
                      | some (ms, rem) =>
                          some ((String.mk key, Json.str (String.mk val)) :: ms, rem)
                      | none => none
                  | _ => some ([(String.mk key, Json.str (String.mk val))], rest3)
              | none => none
          | _ => none
      | none => none
  | _ + 1, _ => none

/-- A computable fragment of Python's `json.loads`: flat objects whose
keys and values are escape-free strings decode to `Json.obj`; everything
else — in particular the empty string — is treated as non-decodable
(`none`).  This fragment covers every response the fake well-formed
endpoint below emits. -/
def jsonLoadsFlat : JsonLoads := fun s =>
  match s.toList with
  | '\x7b' :: '\x7d' :: [] => some (Json.obj [])
  | '\x7b' :: rest =>
      match parseMembers rest.length rest with
      | some (ms, '\x7d' :: []) => some (Json.obj ms)
      | _ => none
  | _ => none

/-- A one-item text response. -/
def textResponse (s : String) : ToolResponse := ⟨[⟨some s⟩]⟩

/-- The fake endpoint that always returns well-formed results:
`shell_start` hands out session id `s1`; captures and recording-stop
return a download reference whose filename equals the `name` argument;
everything else returns plain (non-JSON) text. -/
def goodSession : Session := fun name args =>
  if name = "shell_start" then
    Except.ok (textResponse "\x7b\"shell_session_id\":\"s1\"\x7d")
  else if name = "shell_screenshot" || name = "shell_record_stop" then
    match args.lookup "name" with
    | some (Json.str n) =>
        Except.ok (textResponse
          ("\x7b\"download_url\":\"http://dl/" ++ n ++ "\",\"filename\":\"" ++ n ++ "\"\x7d"))
    | _ => Except.ok (textResponse "ok")
  else Except.ok (textResponse "ok")

/-- A fetch that always succeeds, returning content derived from the URL. -/
def goodFetch : Fetch := fun url => Except.ok ("content-of:" ++ url)

/-- The full-scenario run against the always-well-formed endpoint. -/
def goodRun : Except PyExc Unit × List Event :=
  demo_save_restore jsonLoadsFlat goodSession goodFetch DEMO_HOST OUTPUT_DIR []

def goodTrace : List Event := goodRun.2

/-- The connection-reset exception used to probe the error classifier. -/
def connResetExc : PyExc := ⟨"ConnectionResetError", "Connection reset by peer"⟩

/-- An endpoint that behaves like `goodSession` until `shell_record_start`,
which fails with a connection-reset error: a remote-invocation failure
after the connection is established. -/
def recordStartFailSession : Session := fun name args =>
  if name = "shell_record_start" then Except.error connResetExc
  else goodSession name args

/-- The scenario run aborted at `shell_record_start`. -/
def abortedRun : Except PyExc Unit × List Event :=
  demo_save_restore jsonLoadsFlat recordStartFailSession goodFetch DEMO_HOST OUTPUT_DIR []

def abortedTrace : List Event := abortedRun.2

/-- An endpoint whose very first RPC call raises a non-connection-like
exception. -/
def bootFailExc : PyExc := ⟨"RuntimeError", "boom"⟩

def bootFailSession : Session := fun _ _ => Except.error bootFailExc

/-! ### The §4.5 state sequence and its refinement into invocations. -/

/-- Modelled from the spec: the strict linear state sequence of §4.5, the
braced list triples expanded in place. -/
def specStateSequence : List String :=
  ["bootstrap", "remote-shell-entry", "recording-start",
   "list-sessions", "list-windows", "list-panes",
   "trigger-save", "show-saved-state", "verification-capture-1",
   "destroy-server", "show-destroyed-state", "recreate-bootstrap-session",
   "disable-auto-restore", "trigger-restore", "settle-wait",
   "cleanup-bootstrap-session",
   "list-sessions", "list-windows", "list-panes",
   "show-restore-log", "verification-capture-2", "attach-to-target-session",
   "settle-wait", "verification-capture-3", "recording-stop",
   "cleanup", "terminate"]

/-- Modelled from the spec: the refinement mapping assigning each abstract
§4.5 state the remote invocations it denotes, following the §4.4
contracts — `bootstrap` is `open()` (session-start plus prompt
normalization), `remote-shell-entry` is `remoteEnter` (ssh, normalization,
screen clear), `cleanup-bootstrap-session` removes the bootstrap session
and clears the screen for the post-restore listing, `cleanup` is the
best-effort detach / re-enable / exit of `close()`, `terminate` the
session-stop, and `settle-wait` issues no remote operation. -/
def callsOfState (sid : Json) (host : String) :
    String → List (String × List (String × Json))
  | "bootstrap" =>
      [("shell_start", shellStartArgs),
       ("shell_send", sendArgs sid "export PS1=\x27$ \x27\r" 500)]
  | "remote-shell-entry" =>
      [("shell_send", sendArgs sid ("ssh " ++ host ++ "\r") 3000),
       ("shell_send", sendArgs sid "export PS1=\x27$ \x27\r" 500),
       ("shell_send", sendArgs sid "clear\r" 500)]
  | "recording-start" =>
      [("shell_record_start", [("session_id", sid), ("fps", Json.num 8)])]
  | "list-sessions" => [("shell_send", sendArgs sid "tmux list-sessions\r" 1500)]
  | "list-windows" => [("shell_send", sendArgs sid "tmux list-windows -a\r" 1000)]
  | "list-panes" => [("shell_send", sendArgs sid listPanesCmd 1000)]
  | "trigger-save" =>
      [("shell_send", sendArgs sid ("tmux run-shell " ++ RESURRECT_SAVE ++ "\r") 500)]
  | "show-saved-state" => [("shell_send", sendArgs sid showSavedCmd 500)]
  | "verification-capture-1" =>
      [("shell_screenshot", [("session_id", sid), ("name", Json.str "verify-saved-json")])]
  | "destroy-server" => [("shell_send", sendArgs sid "tmux kill-server\r" 1500)]
  | "show-destroyed-state" => [("shell_send", sendArgs sid "tmux list-sessions\r" 1500)]
  | "recreate-bootstrap-session" =>
      [("shell_send", sendArgs sid "tmux new-session -d -s main\r" 2000)]
  | "disable-auto-restore" =>
      [("shell_send", sendArgs sid "tmux set-option -g @continuum-restore \x27off\x27\r" 500)]
  | "trigger-restore" =>
      [("shell_send", sendArgs sid ("tmux run-shell " ++ RESURRECT_RESTORE ++ "\r") 500)]
  | "settle-wait" => []
  | "cleanup-bootstrap-session" =>
      [("shell_send", sendArgs sid "tmux kill-session -t main 2>/dev/null\r" 500),
       ("shell_send", sendArgs sid "clear\r" 500)]
  | "show-restore-log" =>
      [("shell_send", sendArgs sid "tail -4 ~/.tmux/resurrect/assistant-restore.log\r" 1500)]
  | "verification-capture-2" =>
      [("shell_screenshot", [("session_id", sid), ("name", Json.str "verify-restored-sessions")])]
  | "attach-to-target-session" =>
      [("shell_send", sendArgs sid "unset TMUX; tmux attach -t skynet\r" 3000)]
  | "verification-capture-3" =>
      [("shell_screenshot", [("session_id", sid), ("name", Json.str "verify-agent-tui")])]
  | "recording-stop" =>
      [("shell_record_stop", [("session_id", sid), ("name", Json.str "demo-save-restore")])]
  | "cleanup" =>
      [("shell_send", sendArgs sid (CTRL_A ++ "d") 1000),
       ("shell_send", sendArgs sid "tmux set-option -g @continuum-restore \x27on\x27 2>/dev/null\r" 500),
       ("shell_send", sendArgs sid "exit\r" 500)]
  | "terminate" => [("shell_stop", [("session_id", sid)])]
  | _ => []

/-- The §4.5 sequence refined into concrete invocations, for session id
`s1` and the default demo host. -/
def specExpansion : List (String × List (String × Json)) :=
  specStateSequence.flatMap (callsOfState (Json.str "s1") DEMO_HOST)

/-! ### Auxiliary definitions for the theorems below. -/

/-- The trace `call_tool` appends when run on the empty trace. -/
def callToolTrace (jl : JsonLoads) (sess : Session) (name : String)
    (args : List (String × Json)) : List Event :=
  (call_tool jl sess name args []).2

/-- A decoder on which every decode attempt raises. -/
def alwaysNoneDecoder : JsonLoads := fun _ => none

/-- An endpoint whose responses carry no text content at all. -/
def emptyContentSession : Session := fun _ _ => Except.ok ⟨[]⟩

/-- A fetch returning fixed content. -/
def constFetch : Fetch := fun _ => Except.ok "bytes"

/-- An endpoint whose `shell_start` response is plain text, so the decoded
result is the raw fallback and carries no `shell_session_id`. -/
def shellStartNoIdSession : Session := fun _ _ => Except.ok (textResponse "nope")

/-- The exception httpx raises for an unreachable endpoint. -/
def unreachableExc : PyExc := ⟨"ConnectError", "All connection attempts failed"⟩

/-- The whole-process run in which the connection succeeds and the
endpoint then fails mid-scenario with a connection-reset error. -/
def midRunConnLike : MainResult × List Event :=
  mainFn jsonLoadsFlat goodFetch SHELLWRIGHT_URL OUTPUT_DIR DEMO_HOST
    (Except.ok recordStartFailSession)

/-! ### Monad and list helper lemmas. -/

theorem bind_eq {α β : Type} (x : M α) (f : α → M β) :
    (x >>= f) = M.bind x f := rfl

theorem pure_eq {α : Type} (a : α) : (pure a : M α) = M.pure a := rfl

theorem setFile_lookup (p c : String) : ∀ fs : FS, (setFile fs p c).lookup p = some c
  | [] => by simp [setFile, List.lookup]
  | (q, d) :: rest => by
      by_cases h : q = p
      · simp [setFile, h, List.lookup]
      · have hpq : (p == q) = false := by
          simp only [beq_eq_false_iff_ne]
          exact fun hh => h hh.symm
        simp [setFile, h, List.lookup, hpq, setFile_lookup p c rest]

theorem setFile_idem (p c : String) : ∀ fs : FS, setFile (setFile fs p c) p c = setFile fs p c
  | [] => by simp [setFile]
  | (q, d) :: rest => by
      by_cases h : q = p
      · simp [setFile, h]
      · simp [setFile, h, setFile_idem p c rest]

theorem count_zero_of_not_mem (p : String) :
    ∀ fs : FS, p ∉ fs.map Prod.fst → (fs.filter (fun f => f.1 == p)).length = 0
  | [], _ => by simp
  | (q, d) :: rest, h => by
      rw [List.map_cons, List.mem_cons, not_or] at h
      obtain ⟨h1, h2⟩ := h
      have hq : (q == p) = false := by
        simp only [beq_eq_false_iff_ne]
        exact fun hh => h1 hh.symm
      simp [List.filter_cons, hq, count_zero_of_not_mem p rest h2]

theorem setFile_count (p c : String) :
    ∀ fs : FS, (fs.map Prod.fst).Nodup →
      ((setFile fs p c).filter (fun f => f.1 == p)).length = 1
  | [], _ => by simp [setFile]
  | (q, d) :: rest, h => by
      rw [List.map_cons, List.nodup_cons] at h
      obtain ⟨h1, h2⟩ := h
      by_cases hq : q = p
      · subst hq
        simp [setFile, List.filter_cons, count_zero_of_not_mem q rest h1]
      · have hqp : (q == p) = false := by
          simp only [beq_eq_false_iff_ne]
          exact hq
        simp [setFile, hq, List.filter_cons, hqp, setFile_count p c rest h2]

theorem mem_keys_setFile (p c x : String) :
    ∀ fs : FS, x ∈ (setFile fs p c).map Prod.fst → x ∈ fs.map Prod.fst ∨ x = p
  | [], h => by
      simp [setFile] at h
      exact Or.inr h
  | (q, d) :: rest, h => by
      by_cases hq : q = p
      · subst hq
        rw [setFile, if_pos rfl, List.map_cons, List.mem_cons] at h
        rcases h with h | h
        · exact Or.inr h
        · exact Or.inl (by rw [List.map_cons, List.mem_cons]; exact Or.inr h)
      · rw [setFile, if_neg hq, List.map_cons, List.mem_cons] at h
        rcases h with h | h
        · exact Or.inl (by rw [List.map_cons, List.mem_cons]; exact Or.inl h)
        · rcases mem_keys_setFile p c x rest h with h3 | h3
          · exact Or.inl (by rw [List.map_cons, List.mem_cons]; exact Or.inr h3)
          · exact Or.inr h3

theorem setFile_nodup (p c : String) :
    ∀ fs : FS, (fs.map Prod.fst).Nodup → ((setFile fs p c).map Prod.fst).Nodup
  | [], _ => by simp [setFile]
  | (q, d) :: rest, h => by
      rw [List.map_cons, List.nodup_cons] at h
      obtain ⟨h1, h2⟩ := h
      by_cases hq : q = p
      · subst hq
        rw [setFile, if_pos rfl]
        rw [List.map_cons, List.nodup_cons]
        exact ⟨h1, h2⟩
      · rw [setFile, if_neg hq]
        rw [List.map_cons, List.nodup_cons]
        refine ⟨fun hmem => ?_, setFile_nodup p c rest h2⟩
        rcases mem_keys_setFile p c q rest hmem with h3 | h3
        · exact h1 h3
        · exact hq h3

/-- Behaviour of `call_tool` on a successful RPC call: print the log line,
transmit the request, return the decoded-or-raw result. -/
theorem call_tool_ok (jl : JsonLoads) (sess : Session) (name : String)
    (args : List (String × Json)) (resp : ToolResponse) (tr : List Event)
    (hok : sess name args = Except.ok resp) :
    call_tool jl sess name args tr =
      (Except.ok (toolResultOf jl resp),
       tr ++ [Event.printed (logLine name args), Event.rpc name args]) := by
  simp [call_tool, bind_eq, M.bind, emit, pure_eq, M.pure, hok]

/-- Behaviour of `call_tool` on a failing RPC call: the log line is
printed, nothing is transmitted, the exception propagates. -/
theorem call_tool_err (jl : JsonLoads) (sess : Session) (name : String)
    (args : List (String × Json)) (e : PyExc) (tr : List Event)
    (herr : sess name args = Except.error e) :
    call_tool jl sess name args tr =
      (Except.error e, tr ++ [Event.printed (logLine name args)]) := by
  simp [call_tool, bind_eq, M.bind, emit, pure_eq, M.pure, M.throwExc, herr]

/-- Behaviour of `download` on a result carrying both keys with string
values and a succeeding fetch: one file write plus one log line. -/
theorem download_reduces (fetch : Fetch) (fields : List (String × Json))
    (dir url fname content : String) (tr : List Event)
    (hu : fields.lookup "download_url" = some (Json.str url))
    (hf : fields.lookup "filename" = some (Json.str fname))
    (hc : fetch url = Except.ok content) :
    download fetch (Json.obj fields) dir tr =
      (Except.ok (),
       tr ++ [Event.wrote (ospath_join dir fname) content,
              Event.printed ("  " ++ GREEN ++ "saved:" ++ RESET ++ " " ++ ospath_join dir fname)]) := by
  simp [download, bind_eq, M.bind, emit, pure_eq, M.pure, liftE, pyIn, dictGetitem, hu, hf, hc]

/-! ### The claims. -/

/-- C1: for every remote tool invocation whose RPC call succeeds but whose
concatenated response text is not decodable (`json.loads` raises — in
particular when the response carries no text content at all, so the text
is empty), `call_tool` returns normally with the raw-fallback mapping
`{"raw": text}`; no exception escapes the decoding step. -/
theorem c1_raw_fallback (jl : JsonLoads) (sess : Session) (name : String)
    (args : List (String × Json)) (resp : ToolResponse) (tr : List Event)
    (hok : sess name args = Except.ok resp)
    (hdec : jl (concatTexts resp.content) = none) :
    call_tool jl sess name args tr =
      (Except.ok (Json.obj [("raw", Json.str (concatTexts resp.content))]),
       tr ++ [Event.printed (logLine name args), Event.rpc name args]) := by
  rw [call_tool_ok jl sess name args resp tr hok]
  simp [toolResultOf, hdec]

/-- Witness for C1, at the no-text-content endpoint and a decoder that
always raises: the result is `{"raw": ""}` and the call returns normally. -/
theorem c1_raw_fallback_witness :
    emptyContentSession "t" [] = Except.ok (⟨[]⟩ : ToolResponse) ∧
    alwaysNoneDecoder (concatTexts ([] : List ContentItem)) = none ∧
    call_tool alwaysNoneDecoder emptyContentSession "t" [] [] =
      (Except.ok (Json.obj [("raw", Json.str "")]),
       [Event.printed (logLine "t" []), Event.rpc "t" []]) := by
  refine ⟨rfl, rfl, ?_⟩
  have h := c1_raw_fallback alwaysNoneDecoder emptyContentSession "t" [] ⟨[]⟩ [] rfl rfl
  simpa [concatTexts] using h

/-- C2: for every result mapping carrying both `download_url` and
`filename` (with string values) and a succeeding fetch, the downloader
returns without raising, after the run exactly one file with the joined
path exists in the output directory (on any well-formed filesystem), its
content is the fetched content, re-running the downloader on the same
result leaves the filesystem unchanged (idempotent overwrite in place),
and no duplicate path is created. -/
theorem c2_download_idempotent (fetch : Fetch) (fields : List (String × Json))
    (dir url fname content : String) (fs : FS)
    (hu : fields.lookup "download_url" = some (Json.str url))
    (hf : fields.lookup "filename" = some (Json.str fname))
    (hc : fetch url = Except.ok content)
    (hnd : (fs.map Prod.fst).Nodup) :
    (download fetch (Json.obj fields) dir []).1 = Except.ok () ∧
    ((applyFsEvents (download fetch (Json.obj fields) dir []).2 fs).filter
        (fun f => f.1 == ospath_join dir fname)).length = 1 ∧
    (applyFsEvents (download fetch (Json.obj fields) dir []).2 fs).lookup
        (ospath_join dir fname) = some content ∧
    applyFsEvents (download fetch (Json.obj fields) dir []).2
        (applyFsEvents (download fetch (Json.obj fields) dir []).2 fs) =
      applyFsEvents (download fetch (Json.obj fields) dir []).2 fs ∧
    ((applyFsEvents (download fetch (Json.obj fields) dir []).2 fs).map Prod.fst).Nodup := by
  rw [download_reduces fetch fields dir url fname content [] hu hf hc]
  refine ⟨rfl, ?_, ?_, ?_, ?_⟩ <;>
    simp only [applyFsEvents, List.nil_append, List.foldl_cons, List.foldl_nil]
  · exact setFile_count _ _ fs hnd
  · exact setFile_lookup _ _ fs
  · exact setFile_idem _ _ fs
  · exact setFile_nodup _ _ fs hnd

/-- Witness for C2 at a concrete result, fetch and empty directory. -/
theorem c2_download_idempotent_witness :
    ([("download_url", Json.str "http://x/y"),
      ("filename", Json.str "demo.gif")].lookup "download_url" = some (Json.str "http://x/y")) ∧
    (download constFetch (Json.obj [("download_url", Json.str "http://x/y"),
        ("filename", Json.str "demo.gif")]) "out" []).1 = Except.ok () ∧
    ((applyFsEvents (download constFetch (Json.obj [("download_url", Json.str "http://x/y"),
        ("filename", Json.str "demo.gif")]) "out" []).2 ([] : FS)).filter
        (fun f => f.1 == ospath_join "out" "demo.gif")).length = 1 := by
  have h := c2_download_idempotent constFetch
    [("download_url", Json.str "http://x/y"), ("filename", Json.str "demo.gif")]
    "out" "http://x/y" "demo.gif" "bytes" [] rfl rfl rfl (by simp)
  exact ⟨rfl, h.1, h.2.1⟩

/-- C3: the log line of an invocation is invariant under changing the
`session_id` argument value — so the printed output of two invocations
differing only in that value is identical — while the argument dict
transmitted to the remote side is exactly the original one, still carrying
the `session_id` entry; and when the two session ids differ, the two
transmitted requests differ. -/
theorem c3_log_omits_session_id (jl : JsonLoads) (sess : Session) (name : String)
    (pre post : List (String × Json)) (sid sid2 : Json) :
    logLine name (pre ++ ("session_id", sid) :: post) =
      logLine name (pre ++ ("session_id", sid2) :: post) ∧
    printedOf (callToolTrace jl sess name (pre ++ ("session_id", sid) :: post)) =
      printedOf (callToolTrace jl sess name (pre ++ ("session_id", sid2) :: post)) ∧
    ("session_id", sid) ∈ pre ++ ("session_id", sid) :: post ∧
    (∀ n a, Event.rpc n a ∈ callToolTrace jl sess name (pre ++ ("session_id", sid) :: post) →
      a = pre ++ ("session_id", sid) :: post) ∧
    (sid ≠ sid2 → pre ++ ("session_id", sid) :: post ≠ pre ++ ("session_id", sid2) :: post) := by
  have hlog : logLine name (pre ++ ("session_id", sid) :: post) =
      logLine name (pre ++ ("session_id", sid2) :: post) := by
    simp [logLine, List.filter_append]
  refine ⟨hlog, ?_, by simp, ?_, ?_⟩
  · unfold callToolTrace
    cases h1 : sess name (pre ++ ("session_id", sid) :: post) with
    | ok r1 =>
        cases h2 : sess name (pre ++ ("session_id", sid2) :: post) with
        | ok r2 =>
            rw [call_tool_ok _ _ _ _ _ _ h1, call_tool_ok _ _ _ _ _ _ h2]
            simp [printedOf, hlog]
        | error e2 =>
            rw [call_tool_ok _ _ _ _ _ _ h1, call_tool_err _ _ _ _ _ _ h2]
            simp [printedOf, hlog]
    | error e1 =>
        cases h2 : sess name (pre ++ ("session_id", sid2) :: post) with
        | ok r2 =>
            rw [call_tool_err _ _ _ _ _ _ h1, call_tool_ok _ _ _ _ _ _ h2]
            simp [printedOf, hlog]
        | error e2 =>
            rw [call_tool_err _ _ _ _ _ _ h1, call_tool_err _ _ _ _ _ _ h2]
            simp [printedOf, hlog]
  · intro n a hmem
    unfold callToolTrace at hmem
    cases h1 : sess name (pre ++ ("session_id", sid) :: post) with
    | ok r1 =>
        rw [call_tool_ok _ _ _ _ _ _ h1] at hmem
        simp at hmem
        exact hmem.2
    | error e1 =>
        rw [call_tool_err _ _ _ _ _ _ h1] at hmem
        simp at hmem
  · intro hne heq
    have h2 := List.append_cancel_left heq
    injection h2 with h3 _
    injection h3 with _ h4
    exact hne h4

/-- Witness for C3 at two concrete invocations differing only in the
session id: identical log lines, different argument dicts. -/
theorem c3_log_omits_session_id_witness :
    logLine "tool" ([("input", Json.str "x")] ++ ("session_id", Json.str "a") :: []) =
      logLine "tool" ([("input", Json.str "x")] ++ ("session_id", Json.str "b") :: []) ∧
    ([("input", Json.str "x")] ++ ("session_id", Json.str "a") :: []) ≠
      ([("input", Json.str "x")] ++ ("session_id", Json.str "b") :: []) := by
  have h := c3_log_omits_session_id alwaysNoneDecoder emptyContentSession "tool"
    [("input", Json.str "x")] [] (Json.str "a") (Json.str "b")
  refine ⟨h.1, h.2.2.2.2 ?_⟩
  intro hh
  injection hh with hs
  exact absurd hs (by decide)

/-- C4: against the always-well-formed endpoint the scenario completes,
and the sequence of transmitted tool invocations is exactly the §4.5
linear state sequence refined state by state into its invocations — no
branching, no retries, no reordering. -/
theorem c4_operation_sequence :
    goodRun.1 = Except.ok () ∧ rpcCalls goodTrace = specExpansion :=
  ⟨rfl, rfl⟩

/-- C5 counterexample: the claim counts two capture operations and three
downloaded artifacts, but in the well-formed-endpoint run the scenario
issues three `shell_screenshot` invocations (not two) and downloads four
artifacts (not three). -/
theorem c5_artifact_count_counterexample :
    countTool goodTrace "shell_screenshot" = 3 ∧
    ¬ countTool goodTrace "shell_screenshot" = 2 ∧
    (wrotePaths goodTrace).length = 4 ∧
    ¬ (wrotePaths goodTrace).length = 3 := by
  refine ⟨rfl, ?_, rfl, ?_⟩
  · intro h
    rw [show countTool goodTrace "shell_screenshot" = 3 from rfl] at h
    simp at h
  · intro h
    rw [show (wrotePaths goodTrace).length = 4 from rfl] at h
    simp at h

/-- C5 amended: the three capture operations and the one recording-stop
operation of the well-formed-endpoint run produce four downloaded
artifacts, whose file names (under the output directory) are exactly the
`name` arguments passed: `verify-saved-json`, `verify-restored-sessions`,
`verify-agent-tui`, `demo-save-restore`. -/
theorem c5_artifact_names_amended :
    captureNames goodTrace =
      ["verify-saved-json", "verify-restored-sessions",
       "verify-agent-tui", "demo-save-restore"] ∧
    wrotePaths goodTrace =
      [ospath_join OUTPUT_DIR "verify-saved-json",
       ospath_join OUTPUT_DIR "verify-restored-sessions",
       ospath_join OUTPUT_DIR "verify-agent-tui",
       ospath_join OUTPUT_DIR "demo-save-restore"] ∧
    (wrotePaths goodTrace).length = 4 :=
  ⟨rfl, rfl, rfl⟩

/-- C6: when establishing the RPC channel fails with a
connection-classified exception, the process prints the remediation
message on stderr, exits with status 1, and transmits no tool invocation
at all. -/
theorem c6_connection_failure (jl : JsonLoads) (fetch : Fetch)
    (url dir host : String) (e : PyExc)
    (hconn : connPattern e = true) :
    mainFn jl fetch url dir host (Except.error e) =
      (MainResult.exited 1,
       configBanner url dir host ++ [Event.printedErr (remediationMsg url)]) ∧
    rpcCalls (mainFn jl fetch url dir host (Except.error e)).2 = [] := by
  constructor
  · simp [mainFn, hconn]
  · simp [mainFn, hconn, rpcCalls, configBanner]

/-- Witness for C6 at the exception httpx raises for an unreachable
endpoint. -/
theorem c6_connection_failure_witness :
    connPattern unreachableExc = true ∧
    (mainFn jsonLoadsFlat goodFetch SHELLWRIGHT_URL OUTPUT_DIR DEMO_HOST
        (Except.error unreachableExc)).1 = MainResult.exited 1 ∧
    rpcCalls (mainFn jsonLoadsFlat goodFetch SHELLWRIGHT_URL OUTPUT_DIR DEMO_HOST
        (Except.error unreachableExc)).2 = [] := by
  have h := c6_connection_failure jsonLoadsFlat goodFetch SHELLWRIGHT_URL OUTPUT_DIR
    DEMO_HOST unreachableExc rfl
  exact ⟨rfl, by rw [h.1], h.2⟩

/-- C7 counterexample: a remote-invocation failure after the connection is
established (a `ConnectionResetError` raised by `shell_record_start`, five
invocations into the scenario) does not propagate — `main`'s textual
classifier matches it, so the process prints the remediation message and
exits 1 instead of re-raising. -/
theorem c7_swallowed_midrun_counterexample :
    midRunConnLike.1 = MainResult.exited 1 ∧
    midRunConnLike.1 ≠ MainResult.raised connResetExc ∧
    countTool midRunConnLike.2 "shell_start" = 1 := by
  refine ⟨rfl, ?_, rfl⟩
  intro h
  rw [show midRunConnLike.1 = MainResult.exited 1 from rfl] at h
  cases h

/-- C7 amended: a failure raised after the connection is established
propagates unmodified out of the process provided its exception does not
match the textual connection pattern (type name containing `Connect` or
lowercased message containing `connection`); pattern-matching exceptions
are converted to the remediation message and exit status 1 even
mid-scenario. -/
theorem c7_propagation_amended (jl : JsonLoads) (fetch : Fetch)
    (url dir host : String) (sess : Session) (e : PyExc) (tr : List Event)
    (hrun : demo_save_restore jl sess fetch host dir
        (configBanner url dir host ++
         [Event.printed (GREEN ++ "Connected to shellwright" ++ RESET)]) =
      (Except.error e, tr))
    (hp : connPattern e = false) :
    mainFn jl fetch url dir host (Except.ok sess) = (MainResult.raised e, tr) := by
  simp [mainFn, hrun, hp]

/-- Witness for the amended C7: a `RuntimeError` on the very first RPC
call propagates out of `main` unmodified. -/
theorem c7_propagation_amended_witness :
    connPattern bootFailExc = false ∧
    (mainFn jsonLoadsFlat goodFetch SHELLWRIGHT_URL OUTPUT_DIR DEMO_HOST
        (Except.ok bootFailSession)).1 = MainResult.raised bootFailExc := by
  refine ⟨rfl, ?_⟩
  rw [c7_propagation_amended jsonLoadsFlat goodFetch SHELLWRIGHT_URL OUTPUT_DIR
    DEMO_HOST bootFailSession bootFailExc _ rfl rfl]

/-- C8 counterexample: it is not the case that every workflow step is
followed by a settle delay before the next one — in the
well-formed-endpoint run the rpc/sleep skeleton of the trace contains two
transmitted invocations directly adjacent with no sleep in between (for
instance `shell_record_start` is immediately followed by the first
`tmux list-sessions` send). -/
theorem c8_no_delay_counterexample :
    twoRpcsInARow (opSkeleton goodTrace) = true ∧
    twoRpcsInARow (opSkeleton goodTrace) ≠ false := by
  refine ⟨rfl, ?_⟩
  intro h
  rw [show twoRpcsInARow (opSkeleton goodTrace) = true from rfl] at h
  cases h

/-- C8 amended: the settle delays of the scenario are fixed, pre-chosen
constants — the sleep sequence of the well-formed-endpoint run is exactly
the constant list below, not adaptive — but not every step is followed by
one: some steps are immediately followed by another remote operation. -/
theorem c8_fixed_delays_amended :
    sleptList goodTrace =
      [1.5, 1, 1.5, 6, 3, 1.5, 2, 0.5, 15, 0.5, 0.5, 2, 1, 1.5, 2, 8] ∧
    twoRpcsInARow (opSkeleton goodTrace) = true :=
  ⟨rfl, rfl⟩

/-- C9 counterexample: in a run aborted by a mid-scenario failure (the
endpoint fails at `shell_record_start`), `open()` was invoked — one
`shell_start` is transmitted — but no `shell_stop` is ever issued, so it
is not the case that every run issues exactly one close regardless of how
it ends. -/
theorem c9_leaked_handle_counterexample :
    abortedRun.1 = Except.error connResetExc ∧
    countTool abortedTrace "shell_start" = 1 ∧
    countTool abortedTrace "shell_stop" = 0 :=
  ⟨rfl, rfl, rfl⟩

/-- C9 amended: in a run of the scenario that completes without error
(the well-formed-endpoint run), the one `shell_start` is matched by
exactly one `shell_stop`; a run aborted mid-scenario issues the
`shell_start` but no `shell_stop` — the handle is leaked. -/
theorem c9_close_once_amended :
    goodRun.1 = Except.ok () ∧
    countTool goodTrace "shell_start" = 1 ∧
    countTool goodTrace "shell_stop" = 1 ∧
    countTool abortedTrace "shell_start" = 1 ∧
    countTool abortedTrace "shell_stop" = 0 :=
  ⟨rfl, rfl, rfl, rfl, rfl⟩

/-- C10: when the `shell_start` RPC call succeeds but its decoded result
is a mapping without the key `shell_session_id` — in particular the raw
fallback mapping produced for a non-decodable response — `start_shell`
raises `KeyError` instead of returning a session handle, even though
`call_tool` itself returned normally. -/
theorem c10_missing_key_keyerror (jl : JsonLoads) (sess : Session)
    (resp : ToolResponse) (fields : List (String × Json)) (tr : List Event)
    (hok : sess "shell_start" shellStartArgs = Except.ok resp)
    (hobj : toolResultOf jl resp = Json.obj fields)
    (hmiss : fields.lookup "shell_session_id" = none) :
    (start_shell jl sess tr).1 = Except.error ⟨"KeyError", "shell_session_id"⟩ := by
  unfold start_shell
  rw [bind_eq]
  rw [show (call_tool jl sess "shell_start" shellStartArgs : M Json) =
      fun tr2 => (Except.ok (toolResultOf jl resp),
        tr2 ++ [Event.printed (logLine "shell_start" shellStartArgs),
                Event.rpc "shell_start" shellStartArgs]) from
    funext fun tr2 => call_tool_ok jl sess "shell_start" shellStartArgs resp tr2 hok]
  simp [M.bind, bind_eq, liftE, dictGetitem, hobj, hmiss]

/-- Witness for C10: an endpoint answering `shell_start` with plain text
makes `call_tool` return the raw fallback, and `start_shell` then raises
`KeyError` on the missing session id. -/
theorem c10_missing_key_keyerror_witness :
    toolResultOf alwaysNoneDecoder (textResponse "nope") = Json.obj [("raw", Json.str "nope")] ∧
    ([("raw", Json.str "nope")] : List (String × Json)).lookup "shell_session_id" = none ∧
    (start_shell alwaysNoneDecoder shellStartNoIdSession []).1 =
      Except.error ⟨"KeyError", "shell_session_id"⟩ := by
  refine ⟨rfl, rfl, ?_⟩
  exact c10_missing_key_keyerror alwaysNoneDecoder shellStartNoIdSession
    (textResponse "nope") [("raw", Json.str "nope")] [] rfl rfl rfl
